import Mathlib

/-!
Verification development for the `advocacy_content_rag` feature pipeline.

Shallow embedding of the normalization-and-cleaning pipeline:
* `src/feature_pipeline/data_normalization.py` (`ExcelLoader`)
* `src/feature_pipeline/cleaning.py` (`TranscriptCleaner`)
* `src/feature_pipeline/feature_pipeline.py` (`FeaturePipeline`)

DataFrames are modelled as ordered lists of rows (the integer index, which
never influences the observable values here, is abstracted away).  A cell is
`Option String`: `none` stands for a missing value (`NaN`/`None`/`pd.NA`).
Python operations that can raise are modelled with `Except`.
Machine-level hashing (`hashlib.md5`, `hashlib.sha256`) is embedded as pure
functions on byte lists (`Nat` values `< 256`), with 32-bit arithmetic made
explicit through `% 2 ^ 32`.
-/

/-- A pandas cell: `none` models a missing value (`NaN` / `None` / `pd.NA`). -/
abbrev Cell := Option String

/-- Python whitespace characters recognised by `str.strip()` / `str.split()`
(space, tab, newline, vertical tab, form feed, carriage return). -/
def isPySpace (c : Char) : Bool :=
  c.toNat == 32 || c.toNat == 9 || c.toNat == 10 || c.toNat == 11 ||
  c.toNat == 12 || c.toNat == 13

/-- Python `str.strip()`: drop leading and trailing whitespace. -/
def pyStrip (s : String) : String :=
  ⟨((s.data.dropWhile isPySpace).reverse.dropWhile isPySpace).reverse⟩

/-- ASCII lower-casing of one character, as Python `str.lower()` acts on the
ASCII range (the inputs of this pipeline). -/
def lowerChar (c : Char) : Char :=
  if 65 ≤ c.toNat ∧ c.toNat ≤ 90 then Char.ofNat (c.toNat + 32) else c

/-- Python `str.lower()` restricted to ASCII data. -/
def pyLower (s : String) : String := ⟨s.data.map lowerChar⟩

/-- Helper for `pyWords`: accumulate the current word (reversed) while
scanning; whitespace runs close a word, empties are never produced. -/
def pyWordsAux (cur : List Char) : List Char → List String
  | [] => if cur.isEmpty then [] else [⟨cur.reverse⟩]
  | c :: cs =>
    if isPySpace c then
      if cur.isEmpty then pyWordsAux [] cs else ⟨cur.reverse⟩ :: pyWordsAux [] cs
    else
      pyWordsAux (c :: cur) cs

/-- Python `str.split()` with no argument: split on whitespace runs and
discard empty pieces. -/
def pyWords (s : String) : List String := pyWordsAux [] s.data

/-- Is `pre` a prefix of `l` (character lists)? -/
def prefMatch : List Char → List Char → Bool
  | [], _ => true
  | _ :: _, [] => false
  | a :: as, b :: bs => a == b && prefMatch as bs

/-- Substring search on character lists: Python `needle in hay`. -/
def containsSub (needle : List Char) : List Char → Bool
  | [] => prefMatch needle []
  | c :: cs => prefMatch needle (c :: cs) || containsSub needle cs

/-- Python `needle in hay` on strings. -/
def pyIn (needle hay : String) : Bool := containsSub needle.data hay.data

/-- Python `x or default` for an optional string (`None` and `""` are falsy). -/
def pyOrStr (o : Option String) (d : String) : String :=
  match o with
  | none => d
  | some s => if s = "" then d else s

/-! Section: Byte-level hashing (hashlib)

`hashlib.md5` and `hashlib.sha256` operate on the UTF-8 encoding of the
hashed string.  Bytes are `Nat` values `< 256`; 32-bit words are `Nat`
values reduced `% 2 ^ 32` wherever overflow matters. -/

/-- UTF-8 encoding of a string (Python `str.encode()`). -/
def utf8Encode (s : String) : List Nat :=
  s.data.flatMap (fun c =>
    let n := c.toNat
    if n < 128 then [n]
    else if n < 2048 then [192 + n / 64, 128 + n % 64]
    else if n < 65536 then [224 + n / 4096, 128 + n / 64 % 64, 128 + n % 64]
    else [240 + n / 262144, 128 + n / 4096 % 64, 128 + n / 64 % 64, 128 + n % 64])

/-- The constant `2 ^ 32`, the modulus of 32-bit machine arithmetic. -/
def m32 : Nat := 2 ^ 32

/-- 32-bit left rotation. -/
def rotl32 (x n : Nat) : Nat := (x * 2 ^ n % m32 + x / 2 ^ (32 - n)) % m32

/-- 32-bit right rotation. -/
def rotr32 (x n : Nat) : Nat := (x / 2 ^ n + x % 2 ^ n * 2 ^ (32 - n)) % m32

/-- 32-bit bitwise complement. -/
def not32 (x : Nat) : Nat := x ^^^ (m32 - 1)

/-- Zero padding length for MD5/SHA-256: the number of zero bytes after the
`128` marker so that the total is congruent to 56 mod 64. -/
def padCount (len : Nat) : Nat := (119 - len % 64) % 64

/-- Little-endian 8-byte encoding of a (bit-)length. -/
def leLen8 (n : Nat) : List Nat :=
  [n, n / 2 ^ 8, n / 2 ^ 16, n / 2 ^ 24, n / 2 ^ 32, n / 2 ^ 40,
   n / 2 ^ 48, n / 2 ^ 56].map (· % 256)

/-- Big-endian 8-byte encoding of a (bit-)length. -/
def beLen8 (n : Nat) : List Nat :=
  [n / 2 ^ 56, n / 2 ^ 48, n / 2 ^ 40, n / 2 ^ 32, n / 2 ^ 24, n / 2 ^ 16,
   n / 2 ^ 8, n].map (· % 256)

/-- Group a byte list into little-endian 32-bit words (tail bytes beyond a
multiple of four cannot occur after padding and are discarded). -/
def wordsLE : List Nat → List Nat
  | b1 :: b2 :: b3 :: b4 :: rest =>
    (b1 + 256 * (b2 + 256 * (b3 + 256 * b4))) :: wordsLE rest
  | _ => []

/-- Group a byte list into big-endian 32-bit words. -/
def wordsBE : List Nat → List Nat
  | b1 :: b2 :: b3 :: b4 :: rest =>
    (((b1 * 256 + b2) * 256 + b3) * 256 + b4) :: wordsBE rest
  | _ => []

/-- Group a word list into 16-word blocks (one 512-bit chunk each). -/
def chunk16 : List Nat → List (List Nat)
  | w1 :: w2 :: w3 :: w4 :: w5 :: w6 :: w7 :: w8 ::
    w9 :: w10 :: w11 :: w12 :: w13 :: w14 :: w15 :: w16 :: rest =>
    [w1, w2, w3, w4, w5, w6, w7, w8, w9, w10, w11, w12, w13, w14, w15, w16]
      :: chunk16 rest
  | _ => []

/-- MD5 per-round left-rotation amounts. -/
def md5S : List Nat :=
  [7, 12, 17, 22, 7, 12, 17, 22, 7, 12, 17, 22, 7, 12, 17, 22,
   5, 9, 14, 20, 5, 9, 14, 20, 5, 9, 14, 20, 5, 9, 14, 20,
   4, 11, 16, 23, 4, 11, 16, 23, 4, 11, 16, 23, 4, 11, 16, 23,
   6, 10, 15, 21, 6, 10, 15, 21, 6, 10, 15, 21, 6, 10, 15, 21]

/-- MD5 round constants (RFC 1321). -/
def md5K : List Nat :=
  [3614090360, 3905402710, 606105819, 3250441966,
   4118548399, 1200080426, 2821735955, 4249261313,
   1770035416, 2336552879, 4294925233, 2304563134,
   1804603682, 4254626195, 2792965006, 1236535329,
   4129170786, 3225465664, 643717713, 3921069994,
   3593408605, 38016083, 3634488961, 3889429448,
   568446438, 3275163606, 4107603335, 1163531501,
   2850285829, 4243563512, 1735328473, 2368359562,
   4294588738, 2272392833, 1839030562, 4259657740,
   2763975236, 1272893353, 4139469664, 3200236656,
   681279174, 3936430074, 3572445317, 76029189,
   3654602809, 3873151461, 530742520, 3299628645,
   4096336452, 1126891415, 2878612391, 4237533241,
   1700485571, 2399980690, 4293915773, 2240044497,
   1873313359, 4264355552, 2734768916, 1309151649,
   4149444226, 3174756917, 718787259, 3951481745]

/-- The four MD5 chaining words. -/
structure Md5State where
  (a b c d : Nat)

/-- One MD5 round on a 16-word message block `M`. -/
def md5Round (M : List Nat) (st : Md5State) (i : Nat) : Md5State :=
  let fg : Nat × Nat :=
    if i < 16 then ((st.b &&& st.c) ||| (not32 st.b &&& st.d), i)
    else if i < 32 then ((st.d &&& st.b) ||| (not32 st.d &&& st.c), (5 * i + 1) % 16)
    else if i < 48 then (st.b ^^^ st.c ^^^ st.d, (3 * i + 5) % 16)
    else (st.c ^^^ (st.b ||| not32 st.d), (7 * i) % 16)
  let f := (fg.1 + st.a + md5K.getD i 0 + M.getD fg.2 0) % m32
  ⟨st.d, (st.b + rotl32 f (md5S.getD i 0)) % m32, st.b, st.c⟩

/-- MD5 compression of one 512-bit block. -/
def md5Block (st : Md5State) (M : List Nat) : Md5State :=
  let r := (List.range 64).foldl (md5Round M) st
  ⟨(st.a + r.a) % m32, (st.b + r.b) % m32, (st.c + r.c) % m32, (st.d + r.d) % m32⟩

/-- MD5 padding: `128`, zeros to 56 mod 64, then the bit length little-endian. -/
def md5Pad (msg : List Nat) : List Nat :=
  msg ++ 128 :: List.replicate (padCount msg.length) 0 ++ leLen8 (8 * msg.length)

/-- Little-endian byte split of a 32-bit word. -/
def le4 (w : Nat) : List Nat := [w, w / 2 ^ 8, w / 2 ^ 16, w / 2 ^ 24].map (· % 256)

/-- MD5 digest (16 bytes) of a byte message. -/
def md5Bytes (msg : List Nat) : List Nat :=
  let fin := (chunk16 (wordsLE (md5Pad msg))).foldl md5Block
    ⟨1732584193, 4023233417, 2562383102, 271733878⟩
  [fin.a, fin.b, fin.c, fin.d].flatMap le4

/-- Code point of a lowercase hexadecimal digit. -/
def hexDigitCode (x : Nat) : Nat := if x < 10 then 48 + x else 87 + x

/-- Lowercase hexadecimal digit character. -/
def hexChar (x : Nat) : Char := Char.ofNat (hexDigitCode x)

/-- Lowercase hex string of a byte list (`hexdigest()`). -/
def bytesToHexString (bs : List Nat) : String :=
  ⟨bs.flatMap (fun b => [hexChar (b / 16), hexChar (b % 16)])⟩

/-- Model of `hashlib.md5(s.encode()).hexdigest()`. -/
def md5HexOfString (s : String) : String := bytesToHexString (md5Bytes (utf8Encode s))

/-- SHA-256 round constants (FIPS 180-4). -/
def shaK : List Nat :=
  [1116352408, 1899447441, 3049323471, 3921009573,
   961987163, 1508970993, 2453635748, 2870763221,
   3624381080, 310598401, 607225278, 1426881987,
   1925078388, 2162078206, 2614888103, 3248222580,
   3835390401, 4022224774, 264347078, 604807628,
   770255983, 1249150122, 1555081692, 1996064986,
   2554220882, 2821834349, 2952996808, 3210313671,
   3336571891, 3584528711, 113926993, 338241895,
   666307205, 773529912, 1294757372, 1396182291,
   1695183700, 1986661051, 2177026350, 2456956037,
   2730485921, 2820302411, 3259730800, 3345764771,
   3516065817, 3600352804, 4094571909, 275423344,
   430227734, 506948616, 659060556, 883997877,
   958139571, 1322822218, 1537002063, 1747873779,
   1955562222, 2024104815, 2227730452, 2361852424,
   2428436474, 2756734187, 3204031479, 3329325298]

/-- The eight SHA-256 chaining words. -/
structure Sha8 where
  (a b c d e f g h : Nat)

/-- SHA-256 small sigma 0. -/
def ssig0 (x : Nat) : Nat := rotr32 x 7 ^^^ rotr32 x 18 ^^^ x / 2 ^ 3

/-- SHA-256 small sigma 1. -/
def ssig1 (x : Nat) : Nat := rotr32 x 17 ^^^ rotr32 x 19 ^^^ x / 2 ^ 10

/-- SHA-256 big sigma 0. -/
def bsig0 (x : Nat) : Nat := rotr32 x 2 ^^^ rotr32 x 13 ^^^ rotr32 x 22

/-- SHA-256 big sigma 1. -/
def bsig1 (x : Nat) : Nat := rotr32 x 6 ^^^ rotr32 x 11 ^^^ rotr32 x 25

/-- SHA-256 choose function. -/
def chF (e f g : Nat) : Nat := (e &&& f) ^^^ (not32 e &&& g)

/-- SHA-256 majority function. -/
def majF (a b c : Nat) : Nat := (a &&& b) ^^^ (a &&& c) ^^^ (b &&& c)

/-- Message-schedule extension, on the reversed word list (head = newest). -/
def shaExtend (acc : List Nat) : Nat → List Nat
  | 0 => acc
  | n + 1 =>
    shaExtend (((ssig1 (acc.getD 1 0) + acc.getD 6 0 + ssig0 (acc.getD 14 0)
      + acc.getD 15 0) % m32) :: acc) n

/-- The 64-word SHA-256 message schedule of a 16-word block. -/
def shaSchedule (block : List Nat) : List Nat := (shaExtend block.reverse 48).reverse

/-- One SHA-256 round, consuming a `(k, w)` constant/schedule pair. -/
def shaRound (st : Sha8) (kw : Nat × Nat) : Sha8 :=
  let t1 := (st.h + bsig1 st.e + chF st.e st.f st.g + kw.1 + kw.2) % m32
  let t2 := (bsig0 st.a + majF st.a st.b st.c) % m32
  ⟨(t1 + t2) % m32, st.a, st.b, st.c, (st.d + t1) % m32, st.e, st.f, st.g⟩

/-- SHA-256 compression of one 512-bit block. -/
def shaBlock (st : Sha8) (block : List Nat) : Sha8 :=
  let w := shaSchedule block
  let r := (shaK.zip w).foldl shaRound st
  ⟨(st.a + r.a) % m32, (st.b + r.b) % m32, (st.c + r.c) % m32, (st.d + r.d) % m32,
   (st.e + r.e) % m32, (st.f + r.f) % m32, (st.g + r.g) % m32, (st.h + r.h) % m32⟩

/-- SHA-256 padding: `128`, zeros to 56 mod 64, then the bit length big-endian. -/
def shaPad (msg : List Nat) : List Nat :=
  msg ++ 128 :: List.replicate (padCount msg.length) 0 ++ beLen8 (8 * msg.length)

/-- Big-endian byte split of a 32-bit word. -/
def be4 (w : Nat) : List Nat := [w / 2 ^ 24, w / 2 ^ 16, w / 2 ^ 8, w].map (· % 256)

/-- SHA-256 initial hash value. -/
def shaInit : Sha8 :=
  ⟨1779033703, 3144134277, 1013904242, 2773480762,
   1359893119, 2600822924, 528734635, 1541459225⟩

/-- SHA-256 digest (32 bytes) of a byte message. -/
def sha256Bytes (msg : List Nat) : List Nat :=
  let fin := (chunk16 (wordsBE (shaPad msg))).foldl shaBlock shaInit
  [fin.a, fin.b, fin.c, fin.d, fin.e, fin.f, fin.g, fin.h].flatMap be4

/-- Code points of the lowercase hex digest of a byte list.  The characters
of the Python `hexdigest()` string are represented by their code points so
that `int(hexdigest[:16], 16)` can be stated arithmetically. -/
def hexPairs (bs : List Nat) : List Nat :=
  bs.flatMap (fun b => [hexDigitCode (b / 16), hexDigitCode (b % 16)])

/-- Numeric value of a lowercase hex digit code point (as `int(. , 16)`). -/
def hexCodeVal (c : Nat) : Nat := if 97 ≤ c then c - 87 else c - 48

/-- Python `int(hexstring, 16)` over code points. -/
def parseHexCodes (cs : List Nat) : Nat :=
  cs.foldl (fun acc c => acc * 16 + hexCodeVal c) 0


/-! Section: Configuration and data model

`src/core/models.py` (`RawDataRow`) and the configuration surface used by
`src/feature_pipeline/data_normalization.py`.  The file
`src/config/feature_pipeline_config.json` itself is not among the sources,
so its *contents* are only needed for concrete instances; the components
are parametrised by a `Config` value. -/

/-- The configuration surface: the keyword→network mapping (iteration order
sensitive, modelled as an association list) and the four default strings. -/
structure Config where
  social_networks : List (String × String)
  sub_topic : String
  unknown_question : String
  no_link_network : String
  other_network : String
  deriving DecidableEq

/-- Model of `RawDataRow` from `src/core/models.py`: one validated record per
qualifying spreadsheet row. -/
structure RawDataRow where
  id : String
  main_subject : String
  sub_topic : String
  question : String
  link : Option String
  social_network : String
  deriving DecidableEq

/-- The `clean_link` field validator of `RawDataRow`: values whose lower
case is `nan`/`none`/the empty string become `None`, others are stripped. -/
def cleanLink (v : Option String) : Option String :=
  match v with
  | none => none
  | some s =>
    if s = "" then none
    else if pyLower s = "nan" ∨ pyLower s = "none" then none
    else some (pyStrip s)

namespace ExcelLoader

/-- Model of `ExcelLoader._safe_str`: extract cell `idx` of a row tuple, stringify and
strip it, mapping out-of-range, missing and blank cells to `None`. -/
def safeStr (row : List Cell) (idx : Nat) : Option String :=
  match row.getD idx none with
  | none => none
  | some v =>
    let t := pyStrip v
    if t = "" then none else some t

/-- Model of `ExcelLoader._detect_network`: first keyword (in mapping order) contained
in the lower-cased link wins; no link and no match fall back to the
configured defaults. -/
def detectNetwork (cfg : Config) (link : Option String) : String :=
  match link with
  | none => cfg.no_link_network
  | some l =>
    if l = "" then cfg.no_link_network
    else
      match cfg.social_networks.find? (fun kv => pyIn kv.1 (pyLower l)) with
      | some kv => kv.2
      | none => cfg.other_network

/-- Model of `ExcelLoader._hash`: MD5 hex digest of the question text concatenated
with the link, where a falsy link (absent or empty) contributes the empty
string. -/
def hash (content : String) (link : Option String) : String :=
  md5HexOfString (content ++ pyOrStr link "")

/-- The `RawDataRow` built for a data row (the `rows.append(...)` call in
`ExcelLoader._process_sheet`): cell A (or the configured default) is the
question, cell B the raw link; the id hashes the question with the raw
cell-B value; the pydantic `clean_link` validator normalises the stored
link.  Construction is total here (every field is a string), matching the
fact that the guarded `try` can never fail on validated string cells. -/
def mkDataRecord (cfg : Config) (sheetName subTopic : String) (row : List Cell) :
    RawDataRow :=
  let question := pyOrStr (safeStr row 0) cfg.unknown_question
  { id := hash question (safeStr row 1)
    main_subject := sheetName
    sub_topic := subTopic
    question := question
    link := cleanLink (safeStr row 1)
    social_network := detectNetwork cfg (safeStr row 1) }

/-- One iteration of the `_process_sheet` loop: classify the row
(blank-separator / data / header) and return the new `current_sub_topic`
state together with the optional emitted record. -/
def stepRow (cfg : Config) (sheetName st : String) (row : List Cell) :
    String × Option RawDataRow :=
  let a := safeStr row 0
  let b := safeStr row 1
  let c := safeStr row 2
  if a.isNone && b.isNone then (st, none)
  else if b.isSome || c.isSome then (st, some (mkDataRecord cfg sheetName st row))
  else
    match a with
    | some v => (v, none)
    | none => (st, none)

/-- The `_process_sheet` row loop, threading the `current_sub_topic` state. -/
def processSheetAux (cfg : Config) (sheetName : String) (st : String) :
    List (List Cell) → List RawDataRow
  | [] => []
  | r :: rs =>
    let s := stepRow cfg sheetName st r
    s.2.toList ++ processSheetAux cfg sheetName s.1 rs

/-- Model of `ExcelLoader._process_sheet`: scan a sheet with `current_sub_topic`
initialised to the configured default. -/
def processSheet (cfg : Config) (sheetName : String) (rows : List (List Cell)) :
    List RawDataRow :=
  processSheetAux cfg sheetName cfg.sub_topic rows

/-- A workbook: the ordered sheets, each a name and its raw rows. -/
abbrev Workbook := List (String × List (List Cell))

/-- Model of `ExcelLoader.load`: process every non-empty sheet independently and
concatenate the records. -/
def loadWorkbook (cfg : Config) (wb : Workbook) : List RawDataRow :=
  wb.flatMap (fun s => if s.2.isEmpty then [] else processSheet cfg s.1 s.2)

/-- Specification-side classification: a row yielding a record — not a blank
separator (A and B both empty) and with B or C non-empty. -/
def isDataRow (row : List Cell) : Bool :=
  ((safeStr row 0).isSome || (safeStr row 1).isSome) &&
  ((safeStr row 1).isSome || (safeStr row 2).isSome)

/-- Specification-side header contribution of a row: the cell-A value when
the row is a header row (not blank, not data), else `none`. -/
def headerVal (row : List Cell) : Option String :=
  if (safeStr row 0).isNone ∧ (safeStr row 1).isNone then none
  else if (safeStr row 1).isSome ∨ (safeStr row 2).isSome then none
  else safeStr row 0

/-- Specification-side sub-topic of a position: the cell-A value of the most
recent preceding header row, or the default `d` when no header precedes. -/
def lastHeader (d : String) (pre : List (List Cell)) : String :=
  ((pre.filterMap headerVal).getLast?).getD d

/-- Specification-side rendering of `_process_sheet`, following the claim:
each data row yields a record whose sub-topic is the most recent preceding
header (or the default), computed per row from the preceding prefix `pre`
rather than from threaded state. -/
def specProcessSheetAux (cfg : Config) (sheetName : String)
    (pre : List (List Cell)) : List (List Cell) → List RawDataRow
  | [] => []
  | r :: rs =>
    (if isDataRow r then
      [mkDataRecord cfg sheetName (lastHeader cfg.sub_topic pre) r]
    else []) ++ specProcessSheetAux cfg sheetName (pre ++ [r]) rs

/-- Specification-side `_process_sheet` (empty preceding prefix). -/
def specProcessSheet (cfg : Config) (sheetName : String)
    (rows : List (List Cell)) : List RawDataRow :=
  specProcessSheetAux cfg sheetName [] rows

end ExcelLoader

/-! Section: TranscriptCleaner (`src/feature_pipeline/cleaning.py`)

A DataFrame is a column-name list plus rows of cells aligned with it.  The
`_dropped` dict (insertion-ordered in Python) is an association list from
rule name to the bucket of rejected rows. -/

/-- A pandas DataFrame: named columns and rows of cells aligned with them. -/
structure PDF where
  cols : List String
  rows : List (List Cell)
  deriving DecidableEq

/-- Model of `pd.DataFrame()`: the empty frame. -/
def emptyPDF : PDF := ⟨[], []⟩

/-- Look a cell up by column name (`row[col]`). -/
def getCell (cols : List String) (row : List Cell) (name : String) : Cell :=
  match cols.findIdx? (fun c => c = name) with
  | some i => row.getD i none
  | none => none

/-- Model of `astype(str)` on one cell: a missing value stringifies to `"nan"`. -/
def astypeStr : Cell → String
  | none => "nan"
  | some s => s

namespace TranscriptCleaner

/-- The constructor arguments of `TranscriptCleaner.__init__`
(`text_col`, `min_length`, `unique_ratio`); the threshold is exact here. -/
structure CleanCfg where
  text_col : String
  min_length : Nat
  unique_ratio : ℚ

/-- The `_dropped` dict: rule name → rejected rows, in insertion order. -/
abbrev Buckets := List (String × PDF)

/-- The `_dropped` dict right after `__init__`: the empty dict. -/
def initBuckets : Buckets := []

/-- The candidate text of a row: `df[text_col].astype(str).str.strip()`. -/
def textAt (cols : List String) (textCol : String) (row : List Cell) : String :=
  pyStrip (astypeStr (getCell cols row textCol))

/-- Model of `TranscriptCleaner._is_repetitive`: lower-case, split on whitespace; a
non-empty word list with fewer distinct words than `unique_ratio` times the
total is repetitive. -/
def isRepetitive (ratio : ℚ) (text : String) : Bool :=
  let words := pyWords (pyLower text)
  decide (words ≠ []) && decide ((words.dedup.length : ℚ) < ratio * words.length)

/-- The `"short"` rule mask: trimmed text shorter than `min_length`. -/
def shortMask (cfg : CleanCfg) (cols : List String) (row : List Cell) : Bool :=
  decide ((textAt cols cfg.text_col row).length < cfg.min_length)

/-- The `"non_english"` rule mask: the trimmed text contains a character
outside the 7-bit ASCII range (the `[^\x00-\x7F]` regular expression). -/
def nonEnglishMask (cfg : CleanCfg) (cols : List String) (row : List Cell) : Bool :=
  (textAt cols cfg.text_col row).data.any (fun c => decide (127 < c.toNat))

/-- The `"repetitive"` rule mask. -/
def repetitiveMask (cfg : CleanCfg) (cols : List String) (row : List Cell) : Bool :=
  isRepetitive cfg.unique_ratio (textAt cols cfg.text_col row)

/-- Model of `TranscriptCleaner.clean`: copy (content-neutral here), pass through when
the text column is absent (leaving `_dropped` untouched), otherwise apply the
three rules as a waterfall, capturing each rejected bucket before removal and
recomputing the text from the surviving table.  Returns the cleaned frame and
the new `_dropped` state. -/
def clean (cfg : CleanCfg) (dropped : Buckets) (df : PDF) : PDF × Buckets :=
  if cfg.text_col ∈ df.cols then
    let b1 := df.rows.filter (shortMask cfg df.cols)
    let r1 := df.rows.filter (fun r => ! shortMask cfg df.cols r)
    let b2 := r1.filter (nonEnglishMask cfg df.cols)
    let r2 := r1.filter (fun r => ! nonEnglishMask cfg df.cols r)
    let b3 := r2.filter (repetitiveMask cfg df.cols)
    let r3 := r2.filter (fun r => ! repetitiveMask cfg df.cols r)
    (⟨df.cols, r3⟩,
     [("short", ⟨df.cols, b1⟩), ("non_english", ⟨df.cols, b2⟩),
      ("repetitive", ⟨df.cols, b3⟩)])
  else (df, dropped)

/-- Row de-duplication keeping first occurrences
(`DataFrame.drop_duplicates`). -/
def dedupRows (seen : List (List Cell)) : List (List Cell) → List (List Cell)
  | [] => []
  | r :: rs =>
    if r ∈ seen then dedupRows seen rs else r :: dedupRows (r :: seen) rs

/-- Model of `drop_duplicates()` on a frame. -/
def dropDuplicates (df : PDF) : PDF := ⟨df.cols, dedupRows [] df.rows⟩

/-- Model of `pd.concat(frames, ignore_index=True)` for same-schema frames; the caller
guards against the empty list (where pandas raises). -/
def pdConcat (fs : List PDF) : PDF :=
  ⟨((fs.head?).map PDF.cols).getD [], fs.flatMap PDF.rows⟩

/-- The `else` branch of `get_dropped` (no truthy rule name):
`pd.concat(self._dropped.values(), ignore_index=True).drop_duplicates()` —
pandas raises `ValueError` when there is nothing to concatenate. -/
def getDroppedAll (dropped : Buckets) : Except String PDF :=
  if dropped = [] then Except.error "ValueError: No objects to concatenate"
  else Except.ok (dropDuplicates (pdConcat (dropped.map (fun kv => kv.2))))

/-- Model of `TranscriptCleaner.get_dropped`: a truthy rule name selects its bucket
(defaulting to an empty frame); `None` or an empty-string rule falls through
to the concatenation of all buckets. -/
def getDropped (dropped : Buckets) (rule : Option String) : Except String PDF :=
  match rule with
  | some r =>
    if r ≠ "" then
      Except.ok ((((dropped.find? (fun kv => kv.1 = r)).map (fun kv => kv.2))).getD emptyPDF)
    else getDroppedAll dropped
  | none => getDroppedAll dropped

end TranscriptCleaner

/-! Section: FeaturePipeline (`src/feature_pipeline/feature_pipeline.py`) -/

namespace FeaturePipeline

open ExcelLoader TranscriptCleaner

/-- One row of the companion transcript CSV: the link column (under either
accepted capitalisation) and the `Transcript` column; `none` is `NaN`. -/
structure TRow where
  link : Option String
  transcript : Option String
  deriving DecidableEq

/-- Python `str(x)` of a cell read from CSV: pandas `NaN` stringifies to `"nan"`. -/
def pyStrOfNa : Option String → String
  | none => "nan"
  | some s => s

/-- Python `str(x)` of a `model_dump()` value: Python `None` stringifies to
`"None"`. -/
def pyStrOfObj : Option String → String
  | none => "None"
  | some s => s

/-- Join key of a metadata row: `link.astype(str).str.strip().str.lower()`. -/
def metaKey (link : Option String) : String := pyLower (pyStrip (pyStrOfObj link))

/-- Join key of a transcript row, same normalisation over a CSV cell. -/
def tsKey (link : Option String) : String := pyLower (pyStrip (pyStrOfNa link))

/-- Model of `drop_duplicates(subset=["join_key"])`: keep the first row per key. -/
def dedupTs (seen : List String) : List TRow → List TRow
  | [] => []
  | t :: ts =>
    if tsKey t.link ∈ seen then dedupTs seen ts
    else t :: dedupTs (tsKey t.link :: seen) ts

/-- The columns of the merged table, in construction order. -/
def mergedCols : List String :=
  ["id", "main_subject", "sub_topic", "question", "link", "social_network",
   "join_key", "transcript"]

/-- Result of `model_dump()` of a record as a row of the metadata frame. -/
def recordCells (r : RawDataRow) : List Cell :=
  [some r.id, some r.main_subject, some r.sub_topic, some r.question,
   r.link, some r.social_network]

/-- Model of `FeaturePipeline._load_and_merge`: keep Instagram records, de-duplicate
the transcript table by join key, left-join transcripts onto the metadata by
the normalised key and rename the transcript column. -/
def loadAndMerge (cfg : Config) (wb : Workbook) (ts : List TRow) : PDF :=
  let records := loadWorkbook cfg wb
  let insta := records.filter (fun r => decide (r.social_network = "Instagram"))
  let tsd := dedupTs [] ts
  ⟨mergedCols,
   insta.map (fun r =>
     let k := metaKey r.link
     recordCells r ++
       [some k, ((tsd.find? (fun t => tsKey t.link = k)).map TRow.transcript).join])⟩

/-- Apply a function to one named column of a row. -/
def mapCol (cols : List String) (name : String) (f : Cell → Cell)
    (row : List Cell) : List Cell :=
  match cols.findIdx? (fun c => c = name) with
  | some i => row.set i (f (row.getD i none))
  | none => row

/-- Model of `df["transcript"].replace("nan", pd.NA)`. -/
def replaceNan (df : PDF) : PDF :=
  ⟨df.cols, df.rows.map (mapCol df.cols "transcript"
    (fun c => if c = some "nan" then none else c))⟩

/-- Model of `df.dropna(subset=["transcript"])`. -/
def dropnaTranscript (df : PDF) : PDF :=
  ⟨df.cols, df.rows.filter (fun row => (getCell df.cols row "transcript").isSome)⟩

/-- The rows removed by the missing-transcript drop. -/
def missingTranscriptCount (df : PDF) : Nat :=
  (df.rows.filter (fun row => ! (getCell df.cols row "transcript").isSome)).length

/-- The cleaner constructed by `FeaturePipeline.__init__`:
`TranscriptCleaner(text_col="transcript")` with the default minimum length 80
and uniqueness ratio 0.3. -/
def pipelineCleanerCfg : CleanCfg := ⟨"transcript", 80, 3 / 10⟩

/-- The per-cell behaviour of the `link_id` lambda in
`FeaturePipeline._postprocess`: a string cell is SHA-256-hashed and the first
16 hex digits parsed as an integer; a missing cell is a float `NaN`, on which
`.encode()` raises `AttributeError`. -/
def linkIdCell : Cell → Except String Nat
  | none => Except.error "AttributeError: nan has no attribute encode"
  | some s =>
    Except.ok (parseHexCodes ((hexPairs (sha256Bytes (utf8Encode s))).take 16))

/-- Specification-side value: the first 64 bits of the SHA-256 digest of the
string, interpreted as a big-endian unsigned integer. -/
def first64OfSha256 (s : String) : Nat :=
  ((sha256Bytes (utf8Encode s)).take 8).foldl (fun acc b => acc * 256 + b) 0

end FeaturePipeline

/-! Section: Allocation-explicit view of `TranscriptCleaner.clean` (frame effect)

To state that `clean` never mutates the DataFrame of its caller, the heap of
DataFrame objects is made explicit: a store of frames, references as
indices.  Every pandas operation `clean` performs on frames — `copy`,
`reset_index(drop=True)`, boolean indexing `df[mask]` / `df[~mask]` — returns
a fresh object, so each is modelled as an allocation; nothing writes to an
existing slot. -/

namespace TranscriptCleaner

/-- The heap of DataFrame objects. -/
abbrev Store := List PDF

/-- Dereference (out-of-range reads give the empty frame; never exercised). -/
def readDF (store : Store) (ref : Nat) : PDF := store.getD ref emptyPDF

/-- Allocate a fresh frame, returning the new store and the reference. -/
def alloc (store : Store) (df : PDF) : Store × Nat := (store ++ [df], store.length)

/-- Model of `TranscriptCleaner.clean` with explicit allocation: the body of the
Python method, step for step, on a store.  Returns the final store, the
reference of the returned frame and the new `_dropped` buckets. -/
def cleanObj (cfg : CleanCfg) (dropped : Buckets) (store : Store) (ref : Nat) :
    Store × Nat × Buckets :=
  let df0 := readDF store ref
  let s1 := alloc store df0
  if cfg.text_col ∈ df0.cols then
    let b1 : PDF := ⟨df0.cols, df0.rows.filter (shortMask cfg df0.cols)⟩
    let s2 := alloc s1.1 b1
    let k1 : PDF := ⟨df0.cols, df0.rows.filter (fun r => ! shortMask cfg df0.cols r)⟩
    let s3 := alloc s2.1 k1
    let b2 : PDF := ⟨k1.cols, k1.rows.filter (nonEnglishMask cfg k1.cols)⟩
    let s4 := alloc s3.1 b2
    let k2 : PDF := ⟨k1.cols, k1.rows.filter (fun r => ! nonEnglishMask cfg k1.cols r)⟩
    let s5 := alloc s4.1 k2
    let b3 : PDF := ⟨k2.cols, k2.rows.filter (repetitiveMask cfg k2.cols)⟩
    let s6 := alloc s5.1 b3
    let k3 : PDF := ⟨k2.cols, k2.rows.filter (fun r => ! repetitiveMask cfg k2.cols r)⟩
    let s7 := alloc s6.1 k3
    (s7.1, s7.2, [("short", b1), ("non_english", b2), ("repetitive", b3)])
  else (s1.1, s1.2, dropped)

end TranscriptCleaner

/-! Section: Concrete instances -/

/-- Modelled from the spec: the configuration file
`src/config/feature_pipeline_config.json` is not among the sources; per the
specification it supplies a link-substring → network-name mapping (which must
map some keyword to the `Instagram` value used by the orchestrator filter)
and the four default strings (unknown sub-topic, unknown question, no-link
network, unrecognized-link network). -/
def exCfg : Config :=
  ⟨[("instagram", "Instagram")], "General", "Unknown Question", "No Link", "Other"⟩

/-- The sub-topic stickiness scenario sheet:
`[header="X", data1, data2, header="Y", data3]`. -/
def scenarioRows : List (List Cell) :=
  [[some "X"],
   [some "q1", some "https://instagram.com/a"],
   [some "q2", some "https://instagram.com/b"],
   [some "Y"],
   [some "q3", some "https://instagram.com/c"]]

/-- A workbook with two content-identical data rows in one sheet. -/
def cexWorkbook : ExcelLoader.Workbook :=
  [("S", [[some "q", some "https://instagram.com/x"],
          [some "q", some "https://instagram.com/x"]])]

/-- A transcript table matching the duplicated link with a short transcript. -/
def cexTranscripts : List FeaturePipeline.TRow :=
  [⟨some "https://instagram.com/x", some "short words"⟩]

/-- The merged table of the duplicate-row run, after the missing-transcript
drop. -/
def cexKept : PDF :=
  FeaturePipeline.dropnaTranscript (FeaturePipeline.replaceNan
    (FeaturePipeline.loadAndMerge exCfg cexWorkbook cexTranscripts))

/-- The cleaner output (clean frame and buckets) of the duplicate-row run. -/
def cexCleanOut : PDF × TranscriptCleaner.Buckets :=
  TranscriptCleaner.clean FeaturePipeline.pipelineCleanerCfg
    TranscriptCleaner.initBuckets cexKept

/-- Row count of a `get_dropped` result (0 when the call raises). -/
def exceptRowCount (e : Except String PDF) : Nat :=
  match e with
  | Except.ok d => d.rows.length
  | Except.error _ => 0

/-- A data row with all three cells non-empty (witness input). -/
def exDataRow : List Cell := [some "q", some "https://instagram.com/a", some "done"]

/-- A one-column frame without a `transcript` column (witness input). -/
def exNoTextDF : PDF := ⟨["x"], [[some "y"]]⟩

/-- A 50-character ASCII text of fully unique words (witness input). -/
def exShortText : String := "ab cd ef gh ij kl mn op qr st uv wx yz 012 345 678"

/-- A one-row transcript frame around `exShortText` (witness input). -/
def exShortDF : PDF := ⟨["transcript"], [[some exShortText]]⟩


/-- The bucket a rule name selects in a `_dropped` state (empty frame when
the rule never ran). -/
def TranscriptCleaner.droppedFor (dropped : TranscriptCleaner.Buckets)
    (name : String) : PDF :=
  (((dropped.find? (fun kv => kv.1 = name)).map (fun kv => kv.2))).getD emptyPDF

/-! Section: Helper lemmas -/

theorem length_filter_add_not {α : Type} (l : List α) (p : α → Bool) :
    (l.filter p).length + (l.filter (fun a => ! p a)).length = l.length := by
  induction l with
  | nil => rfl
  | cons a l ih => by_cases h : p a <;> simp [List.filter_cons, h] <;> omega

theorem prefix_lookup {α : Type} :
    ∀ (store ext : List α) (n : Nat), n < store.length →
      (store ++ ext)[n]? = store[n]? := by
  intro store
  induction store with
  | nil => intro ext n h; simp at h
  | cons a l ih =>
    intro ext n h
    cases n with
    | zero => simp
    | succ m =>
      simp only [List.cons_append, List.getElem?_cons_succ]
      exact ih ext m (by simpa using h)

theorem hexCodeVal_hexDigitCode (x : Nat) (hx : x < 16) :
    hexCodeVal (hexDigitCode x) = x := by
  simp only [hexCodeVal, hexDigitCode]
  split <;> split <;> omega

theorem hexPairs_cons (b : Nat) (bs : List Nat) :
    hexPairs (b :: bs) =
      hexDigitCode (b / 16) :: hexDigitCode (b % 16) :: hexPairs bs := by
  simp [hexPairs]

theorem hexPairs_take :
    ∀ (n : Nat) (bs : List Nat), (hexPairs bs).take (2 * n) = hexPairs (bs.take n) := by
  intro n
  induction n with
  | zero => intro bs; simp [hexPairs]
  | succ n ih =>
    intro bs
    cases bs with
    | nil => simp [hexPairs]
    | cons b bs =>
      rw [hexPairs_cons, show 2 * (n + 1) = 2 * n + 1 + 1 by ring,
        List.take_succ_cons, List.take_succ_cons, List.take_succ_cons,
        hexPairs_cons, ih]

theorem hexPairs_take16 (bs : List Nat) :
    (hexPairs bs).take 16 = hexPairs (bs.take 8) := by
  have h := hexPairs_take 8 bs
  norm_num at h
  exact h

theorem parseHex_foldl_aux :
    ∀ (bs : List Nat) (acc : Nat), (∀ b ∈ bs, b < 256) →
      List.foldl (fun a c => a * 16 + hexCodeVal c) acc (hexPairs bs) =
      List.foldl (fun a b => a * 256 + b) acc bs := by
  intro bs
  induction bs with
  | nil => intro acc h; simp [hexPairs]
  | cons b bs ih =>
    intro acc h
    have hb : b < 256 := h b (by simp)
    rw [hexPairs_cons]
    simp only [List.foldl_cons]
    rw [hexCodeVal_hexDigitCode _ (by omega), hexCodeVal_hexDigitCode _ (by omega)]
    rw [show (acc * 16 + b / 16) * 16 + b % 16 = acc * 256 + b by omega]
    exact ih _ (fun x hx => h x (by simp [hx]))

theorem sha256Bytes_lt (msg : List Nat) : ∀ b ∈ sha256Bytes msg, b < 256 := by
  intro b hb
  simp only [sha256Bytes, be4, List.mem_flatMap, List.mem_map] at hb
  obtain ⟨w, -, x, -, hx⟩ := hb
  omega

theorem stepRow_eq (cfg : Config) (name st : String) (row : List Cell) :
    ExcelLoader.stepRow cfg name st row =
      ((ExcelLoader.headerVal row).getD st,
        if ExcelLoader.isDataRow row then
          some (ExcelLoader.mkDataRecord cfg name st row)
        else none) := by
  cases ha : ExcelLoader.safeStr row 0 <;> cases hb : ExcelLoader.safeStr row 1 <;>
    cases hc : ExcelLoader.safeStr row 2 <;>
      simp [ExcelLoader.stepRow, ExcelLoader.headerVal, ExcelLoader.isDataRow,
        ha, hb, hc]

theorem getLast?_cons_getD {α : Type} (a d : α) (l : List α) :
    ((a :: l).getLast?).getD d = (l.getLast?).getD a := by
  cases l with
  | nil => rfl
  | cons b bs =>
    rw [List.getLast?_cons_cons]
    have hs : ((b :: bs).getLast?).isSome := by
      rw [List.getLast?_isSome]; simp
    cases hg : (b :: bs).getLast? with
    | none => rw [hg] at hs; simp at hs
    | some w => simp

theorem lastHeader_snoc (d : String) (pre : List (List Cell)) (r : List Cell) :
    ExcelLoader.lastHeader d (pre ++ [r]) =
      (ExcelLoader.headerVal r).getD (ExcelLoader.lastHeader d pre) := by
  unfold ExcelLoader.lastHeader
  rw [List.filterMap_append]
  cases h : ExcelLoader.headerVal r with
  | none => simp [List.filterMap_cons, h]
  | some v => simp [List.filterMap_cons, h, List.getLast?_concat]

theorem processSheetAux_eq_spec (cfg : Config) (name : String) :
    ∀ (rest : List (List Cell)) (st : String) (pre : List (List Cell)),
      ExcelLoader.lastHeader cfg.sub_topic pre = st →
      ExcelLoader.processSheetAux cfg name st rest =
        ExcelLoader.specProcessSheetAux cfg name pre rest := by
  intro rest
  induction rest with
  | nil => intro st pre _; rfl
  | cons r rs ih =>
    intro st pre h
    have hst : ExcelLoader.lastHeader cfg.sub_topic (pre ++ [r]) =
        (ExcelLoader.headerVal r).getD st := by
      rw [lastHeader_snoc, h]
    simp only [ExcelLoader.processSheetAux, ExcelLoader.specProcessSheetAux, stepRow_eq]
    rw [ih _ _ hst, ← h]
    cases hd : ExcelLoader.isDataRow r <;> simp [hd]

theorem processSheet_eq_spec (cfg : Config) (name : String)
    (rows : List (List Cell)) :
    ExcelLoader.processSheet cfg name rows =
      ExcelLoader.specProcessSheet cfg name rows :=
  processSheetAux_eq_spec cfg name rows cfg.sub_topic [] rfl

/-! Section: Claim theorems -/

/-- C1: in `FeaturePipeline._postprocess`, a row whose `link_cleaned` cell is
a non-null string gets `link_id` equal to the first 64 bits of the SHA-256
digest of that string interpreted as an unsigned integer (the code parses the
first 16 hex digits of the digest); a row whose `link_cleaned` cell is null
never yields a `link_id` value — the per-cell computation fails (float `NaN`
has no `encode`), so the empty string is never hashed in its place. -/
theorem c1_link_id_first64 :
    (∀ s : String,
      FeaturePipeline.linkIdCell (some s) =
        Except.ok (FeaturePipeline.first64OfSha256 s)) ∧
    (∀ n : Nat, FeaturePipeline.linkIdCell none ≠ Except.ok n) := by
  constructor
  · intro s
    have key : parseHexCodes ((hexPairs (sha256Bytes (utf8Encode s))).take 16) =
        FeaturePipeline.first64OfSha256 s := by
      rw [hexPairs_take16]
      exact parseHex_foldl_aux _ 0
        (fun b hb => sha256Bytes_lt _ b (List.take_subset _ _ hb))
    simp only [FeaturePipeline.linkIdCell]
    rw [key]
  · intro n h
    simp [FeaturePipeline.linkIdCell] at h

/-- C3 counterexample: on a freshly constructed `TranscriptCleaner` (empty
`_dropped` dict), `get_dropped` with no rule name does not return an empty
result — `pd.concat` of no objects raises `ValueError`. -/
theorem c3_counterexample :
    TranscriptCleaner.getDropped TranscriptCleaner.initBuckets none =
      Except.error "ValueError: No objects to concatenate" := rfl

/-- C3 (amended): on a freshly constructed `TranscriptCleaner`, `get_dropped`
with any non-empty rule name returns an empty frame without error, while
`get_dropped` with no rule name — or with the falsy empty-string rule name —
raises `ValueError` from `pd.concat` over no objects. -/
theorem c3_fresh_retrieval :
    (∀ r : String, r ≠ "" →
      TranscriptCleaner.getDropped TranscriptCleaner.initBuckets (some r) =
        Except.ok emptyPDF) ∧
    TranscriptCleaner.getDropped TranscriptCleaner.initBuckets none =
      Except.error "ValueError: No objects to concatenate" ∧
    TranscriptCleaner.getDropped TranscriptCleaner.initBuckets (some "") =
      Except.error "ValueError: No objects to concatenate" := by
  refine ⟨?_, rfl, rfl⟩
  intro r hr
  simp [TranscriptCleaner.getDropped, TranscriptCleaner.initBuckets, hr]

/-- C3 witness: the amended theorem applied to the `"short"` rule name. -/
theorem c3_witness :
    TranscriptCleaner.getDropped TranscriptCleaner.initBuckets (some "short") =
      Except.ok emptyPDF :=
  c3_fresh_retrieval.1 "short" (by decide)

/-- C4: a sheet row whose cell A and cell B are both non-empty is classified
as a data row regardless of cell C — `stepRow` emits exactly one record built
by `mkDataRecord` and leaves the `current_sub_topic` state unchanged. -/
theorem c4_data_row_never_header (cfg : Config) (name st : String)
    (row : List Cell)
    (ha : (ExcelLoader.safeStr row 0).isSome = true)
    (hb : (ExcelLoader.safeStr row 1).isSome = true) :
    ExcelLoader.stepRow cfg name st row =
      (st, some (ExcelLoader.mkDataRecord cfg name st row)) := by
  rw [stepRow_eq]
  have hd : ExcelLoader.isDataRow row = true := by
    simp [ExcelLoader.isDataRow, ha, hb]
  have hh : ExcelLoader.headerVal row = none := by
    obtain ⟨bv, hbv⟩ := Option.isSome_iff_exists.mp hb
    simp [ExcelLoader.headerVal, hbv]
  rw [hd, hh]
  rfl

/-- C4 witness: a concrete row with all three cells non-empty. -/
theorem c4_witness :
    ExcelLoader.stepRow exCfg "S" "T" exDataRow =
      ("T", some (ExcelLoader.mkDataRecord exCfg "S" "T" exDataRow)) :=
  c4_data_row_never_header exCfg "S" "T" exDataRow (by decide) (by decide)

/-- C5: within every sheet, each data row gets as sub-topic the cell-A value
of the most recent preceding header row, or the configured default when no
header precedes (`processSheet` equals its per-row specification); the
concrete scenario `[header X, data, data, header Y, data]` yields sub-topics
`X, X, Y`; and sheets are processed independently, so no state carries over
between sheets. -/
theorem c5_sub_topic_stickiness :
    (∀ (cfg : Config) (name : String) (rows : List (List Cell)),
      ExcelLoader.processSheet cfg name rows =
        ExcelLoader.specProcessSheet cfg name rows) ∧
    (ExcelLoader.processSheet exCfg "S" scenarioRows).map RawDataRow.sub_topic =
      ["X", "X", "Y"] ∧
    (∀ (cfg : Config) (w1 w2 : ExcelLoader.Workbook),
      ExcelLoader.loadWorkbook cfg (w1 ++ w2) =
        ExcelLoader.loadWorkbook cfg w1 ++ ExcelLoader.loadWorkbook cfg w2) := by
  refine ⟨processSheet_eq_spec, by decide, ?_⟩
  intro cfg w1 w2
  simp [ExcelLoader.loadWorkbook]

/-- C6: the record id is the hexadecimal MD5 digest of the question text
concatenated with the link (an absent link contributing the empty string), so
the id is a function of that concatenation alone, and a `None` link gives the
same id as an empty-string link. -/
theorem c6_md5_identifier :
    (∀ (q : String) (l : Option String),
      ExcelLoader.hash q l = md5HexOfString (q ++ l.getD "")) ∧
    (∀ q : String, ExcelLoader.hash q none = ExcelLoader.hash q (some "")) := by
  constructor
  · intro q l
    cases l with
    | none => rfl
    | some s =>
      by_cases hs : s = "" <;> simp [ExcelLoader.hash, pyOrStr, hs]
  · intro _
    rfl

/-- C7: when the configured text column is absent from the input frame,
`TranscriptCleaner.clean` returns the table unchanged (same rows, columns and
values) and leaves the `_dropped` state untouched, raising no error. -/
theorem c7_missing_column_passthrough (cfg : TranscriptCleaner.CleanCfg)
    (dropped : TranscriptCleaner.Buckets) (df : PDF)
    (h : cfg.text_col ∉ df.cols) :
    TranscriptCleaner.clean cfg dropped df = (df, dropped) := by
  simp [TranscriptCleaner.clean, h]

/-- C7 witness: the pipeline cleaner applied to a frame without a
`transcript` column. -/
theorem c7_witness :
    TranscriptCleaner.clean FeaturePipeline.pipelineCleanerCfg
      TranscriptCleaner.initBuckets exNoTextDF =
      (exNoTextDF, TranscriptCleaner.initBuckets) :=
  c7_missing_column_passthrough _ _ _ (by decide)

theorem clean_partition (cfg : TranscriptCleaner.CleanCfg)
    (dropped : TranscriptCleaner.Buckets) (df : PDF)
    (hcol : cfg.text_col ∈ df.cols) :
    (((TranscriptCleaner.clean cfg dropped df).2.map
        (fun kv => kv.2.rows.length)).sum) +
      (TranscriptCleaner.clean cfg dropped df).1.rows.length =
      df.rows.length := by
  simp only [TranscriptCleaner.clean]
  rw [if_pos hcol]
  simp only [List.map_cons, List.map_nil, List.sum_cons, List.sum_nil]
  have h1 := length_filter_add_not df.rows
    (TranscriptCleaner.shortMask cfg df.cols)
  have h2 := length_filter_add_not
    (df.rows.filter (fun r => ! TranscriptCleaner.shortMask cfg df.cols r))
    (TranscriptCleaner.nonEnglishMask cfg df.cols)
  have h3 := length_filter_add_not
    ((df.rows.filter (fun r => ! TranscriptCleaner.shortMask cfg df.cols r)).filter
      (fun r => ! TranscriptCleaner.nonEnglishMask cfg df.cols r))
    (TranscriptCleaner.repetitiveMask cfg df.cols)
  omega

theorem dropna_partition (df : PDF) :
    (FeaturePipeline.dropnaTranscript df).rows.length +
      FeaturePipeline.missingTranscriptCount df = df.rows.length := by
  simp only [FeaturePipeline.dropnaTranscript, FeaturePipeline.missingTranscriptCount]
  exact length_filter_add_not df.rows _

theorem replaceNan_length (df : PDF) :
    (FeaturePipeline.replaceNan df).rows.length = df.rows.length := by
  simp [FeaturePipeline.replaceNan]

theorem loadAndMerge_length (cfg : Config) (wb : ExcelLoader.Workbook)
    (ts : List FeaturePipeline.TRow) :
    (FeaturePipeline.loadAndMerge cfg wb ts).rows.length =
      ((ExcelLoader.loadWorkbook cfg wb).filter
        (fun r => decide (r.social_network = "Instagram"))).length := by
  simp [FeaturePipeline.loadAndMerge]

set_option maxRecDepth 100000 in
/-- C2 counterexample: on a workbook with two content-identical data rows
whose shared transcript is dropped by the `"short"` rule, the de-duplicated
dropped table has one row, so dropped-table rows plus clean rows plus
missing-transcript drops plus non-Instagram drops is 1, while 2 records were
parsed. -/
theorem c2_counterexample :
    exceptRowCount (TranscriptCleaner.getDropped cexCleanOut.2 none) +
      cexCleanOut.1.rows.length +
      FeaturePipeline.missingTranscriptCount (FeaturePipeline.replaceNan
        (FeaturePipeline.loadAndMerge exCfg cexWorkbook cexTranscripts)) +
      ((ExcelLoader.loadWorkbook exCfg cexWorkbook).filter
        (fun r => decide (r.social_network ≠ "Instagram"))).length ≠
      (ExcelLoader.loadWorkbook exCfg cexWorkbook).length := by
  decide

/-- C2 (amended): for every configuration, workbook and transcript table, the
SUM of the three quality-rule bucket row counts (without the de-duplication
that `get_dropped` applies to the union) plus the clean-table row count plus
the missing-transcript drop count plus the non-Instagram drop count equals
the number of parsed records; the de-duplicated dropped table satisfies the
same equation exactly when the rule-dropped rows are pairwise distinct. -/
theorem c2_conservation (cfg : Config) (wb : ExcelLoader.Workbook)
    (ts : List FeaturePipeline.TRow) :
    (((TranscriptCleaner.clean FeaturePipeline.pipelineCleanerCfg
        TranscriptCleaner.initBuckets
        (FeaturePipeline.dropnaTranscript (FeaturePipeline.replaceNan
          (FeaturePipeline.loadAndMerge cfg wb ts)))).2.map
        (fun kv => kv.2.rows.length)).sum) +
      (TranscriptCleaner.clean FeaturePipeline.pipelineCleanerCfg
        TranscriptCleaner.initBuckets
        (FeaturePipeline.dropnaTranscript (FeaturePipeline.replaceNan
          (FeaturePipeline.loadAndMerge cfg wb ts)))).1.rows.length +
      FeaturePipeline.missingTranscriptCount (FeaturePipeline.replaceNan
        (FeaturePipeline.loadAndMerge cfg wb ts)) +
      ((ExcelLoader.loadWorkbook cfg wb).filter
        (fun r => decide (r.social_network ≠ "Instagram"))).length =
      (ExcelLoader.loadWorkbook cfg wb).length := by
  have hcol : FeaturePipeline.pipelineCleanerCfg.text_col ∈
      (FeaturePipeline.dropnaTranscript (FeaturePipeline.replaceNan
        (FeaturePipeline.loadAndMerge cfg wb ts))).cols := by
    show "transcript" ∈ FeaturePipeline.mergedCols
    decide
  have hclean := clean_partition FeaturePipeline.pipelineCleanerCfg
    TranscriptCleaner.initBuckets
    (FeaturePipeline.dropnaTranscript (FeaturePipeline.replaceNan
      (FeaturePipeline.loadAndMerge cfg wb ts))) hcol
  have hdrop := dropna_partition (FeaturePipeline.replaceNan
    (FeaturePipeline.loadAndMerge cfg wb ts))
  have hrep := replaceNan_length (FeaturePipeline.loadAndMerge cfg wb ts)
  have hmerge := loadAndMerge_length cfg wb ts
  have htot : ((ExcelLoader.loadWorkbook cfg wb).filter
        (fun r => decide (r.social_network = "Instagram"))).length +
      ((ExcelLoader.loadWorkbook cfg wb).filter
        (fun r => ! decide (r.social_network = "Instagram"))).length =
      (ExcelLoader.loadWorkbook cfg wb).length :=
    length_filter_add_not _ _
  have hne : ((ExcelLoader.loadWorkbook cfg wb).filter
        (fun r => decide (r.social_network ≠ "Instagram"))).length =
      ((ExcelLoader.loadWorkbook cfg wb).filter
        (fun r => ! decide (r.social_network = "Instagram"))).length := by
    have hfun : (fun r : RawDataRow => decide (r.social_network ≠ "Instagram")) =
        (fun r : RawDataRow => ! decide (r.social_network = "Instagram")) := by
      funext r
      by_cases h : r.social_network = "Instagram" <;> simp [h]
    rw [hfun]
  omega

/-- C8: with the pipeline cleaner (minimum length 80), a row of the input
frame whose trimmed text has 50 characters, all ASCII, with fully unique
words, lands in the `"short"` bucket and in neither the `"non_english"` nor
the `"repetitive"` bucket — the rules form a waterfall over the surviving
table — and every surviving row is a row of the input frame, its values
untouched. -/
theorem c8_waterfall (df : PDF) (dropped : TranscriptCleaner.Buckets)
    (row : List Cell)
    (hcol : "transcript" ∈ df.cols)
    (hmem : row ∈ df.rows)
    (hlen : (TranscriptCleaner.textAt df.cols "transcript" row).length = 50)
    (hascii : ∀ c ∈ (TranscriptCleaner.textAt df.cols "transcript" row).data,
      c.toNat ≤ 127)
    (huniq : (pyWords (pyLower
      (TranscriptCleaner.textAt df.cols "transcript" row))).Nodup) :
    row ∈ (TranscriptCleaner.droppedFor
        (TranscriptCleaner.clean FeaturePipeline.pipelineCleanerCfg dropped df).2
        "short").rows ∧
    row ∉ (TranscriptCleaner.droppedFor
        (TranscriptCleaner.clean FeaturePipeline.pipelineCleanerCfg dropped df).2
        "non_english").rows ∧
    row ∉ (TranscriptCleaner.droppedFor
        (TranscriptCleaner.clean FeaturePipeline.pipelineCleanerCfg dropped df).2
        "repetitive").rows ∧
    (∀ r ∈ (TranscriptCleaner.clean FeaturePipeline.pipelineCleanerCfg dropped
        df).1.rows, r ∈ df.rows) := by
  have hcol2 : FeaturePipeline.pipelineCleanerCfg.text_col ∈ df.cols := hcol
  have hshort : TranscriptCleaner.shortMask FeaturePipeline.pipelineCleanerCfg
      df.cols row = true := by
    simp only [TranscriptCleaner.shortMask, FeaturePipeline.pipelineCleanerCfg,
      decide_eq_true_eq]
    rw [hlen]
    norm_num
  simp only [TranscriptCleaner.clean, if_pos hcol2]
  refine ⟨?_, ?_, ?_, ?_⟩
  · simp only [TranscriptCleaner.droppedFor, List.find?]
    simp only [decide_True]
    exact List.mem_filter.mpr ⟨hmem, hshort⟩
  · simp only [TranscriptCleaner.droppedFor, List.find?]
    simp only [decide_True, decide_False]
    intro hin
    have h1 : row ∈ df.rows.filter
        (fun r => ! TranscriptCleaner.shortMask FeaturePipeline.pipelineCleanerCfg
          df.cols r) :=
      List.mem_of_mem_filter hin
    have h2 := (List.mem_filter.mp h1).2
    rw [hshort] at h2
    simp at h2
  · simp only [TranscriptCleaner.droppedFor, List.find?]
    simp only [decide_True, decide_False]
    intro hin
    have h1 : row ∈ df.rows.filter
        (fun r => ! TranscriptCleaner.shortMask FeaturePipeline.pipelineCleanerCfg
          df.cols r) :=
      List.mem_of_mem_filter (List.mem_of_mem_filter hin)
    have h2 := (List.mem_filter.mp h1).2
    rw [hshort] at h2
    simp at h2
  · intro r hr
    exact List.mem_of_mem_filter (List.mem_of_mem_filter
      (List.mem_of_mem_filter hr))

/-- C8 witness: a one-row frame around the 50-character unique-word text. -/
theorem c8_witness :
    [some exShortText] ∈ (TranscriptCleaner.droppedFor
        (TranscriptCleaner.clean FeaturePipeline.pipelineCleanerCfg
          TranscriptCleaner.initBuckets exShortDF).2 "short").rows ∧
    [some exShortText] ∉ (TranscriptCleaner.droppedFor
        (TranscriptCleaner.clean FeaturePipeline.pipelineCleanerCfg
          TranscriptCleaner.initBuckets exShortDF).2 "non_english").rows ∧
    [some exShortText] ∉ (TranscriptCleaner.droppedFor
        (TranscriptCleaner.clean FeaturePipeline.pipelineCleanerCfg
          TranscriptCleaner.initBuckets exShortDF).2 "repetitive").rows ∧
    (∀ r ∈ (TranscriptCleaner.clean FeaturePipeline.pipelineCleanerCfg
        TranscriptCleaner.initBuckets exShortDF).1.rows, r ∈ exShortDF.rows) :=
  c8_waterfall exShortDF TranscriptCleaner.initBuckets [some exShortText]
    (by decide) (by decide) (by decide) (by decide) (by decide)

/-- C9: the repetitive rule removes a row exactly when, after lower-casing
the trimmed text and splitting it on whitespace, the ratio of distinct words
to total words is strictly below the configured threshold; a text whose word
list is empty is never removed by this rule. -/
theorem c9_repetitive_rule (cfg : TranscriptCleaner.CleanCfg)
    (cols : List String) (row : List Cell) :
    (TranscriptCleaner.repetitiveMask cfg cols row = true ↔
      pyWords (pyLower (TranscriptCleaner.textAt cols cfg.text_col row)) ≠ [] ∧
      ((pyWords (pyLower
          (TranscriptCleaner.textAt cols cfg.text_col row))).dedup.length : ℚ) /
        (pyWords (pyLower
          (TranscriptCleaner.textAt cols cfg.text_col row))).length <
        cfg.unique_ratio) ∧
    (pyWords (pyLower (TranscriptCleaner.textAt cols cfg.text_col row)) = [] →
      TranscriptCleaner.repetitiveMask cfg cols row = false) := by
  constructor
  · simp only [TranscriptCleaner.repetitiveMask, TranscriptCleaner.isRepetitive,
      Bool.and_eq_true, decide_eq_true_eq]
    constructor
    · rintro ⟨h1, h2⟩
      refine ⟨h1, ?_⟩
      have hn : (0 : ℚ) < (pyWords (pyLower
          (TranscriptCleaner.textAt cols cfg.text_col row))).length := by
        exact_mod_cast List.length_pos.mpr h1
      rw [div_lt_iff₀ hn]
      exact h2
    · rintro ⟨h1, h2⟩
      refine ⟨h1, ?_⟩
      have hn : (0 : ℚ) < (pyWords (pyLower
          (TranscriptCleaner.textAt cols cfg.text_col row))).length := by
        exact_mod_cast List.length_pos.mpr h1
      rwa [div_lt_iff₀ hn] at h2
  · intro h
    simp [TranscriptCleaner.repetitiveMask, TranscriptCleaner.isRepetitive, h]

/-- C10: `TranscriptCleaner.clean` never mutates the DataFrame object the
caller passed in: in the allocation-explicit model every pandas operation of
the method allocates a fresh frame, so the store entry the caller holds is
unchanged after the call. -/
theorem c10_no_mutation (cfg : TranscriptCleaner.CleanCfg)
    (dropped : TranscriptCleaner.Buckets) (store : TranscriptCleaner.Store)
    (ref : Nat) (h : ref < store.length) :
    (TranscriptCleaner.cleanObj cfg dropped store ref).1[ref]? = store[ref]? := by
  simp only [TranscriptCleaner.cleanObj, TranscriptCleaner.alloc]
  by_cases hc : cfg.text_col ∈ (TranscriptCleaner.readDF store ref).cols <;>
    simp only [hc, if_true, if_false, List.append_assoc] <;>
    exact prefix_lookup store _ ref h

/-- C10 witness: a singleton store holding the one-row transcript frame. -/
theorem c10_witness :
    (TranscriptCleaner.cleanObj FeaturePipeline.pipelineCleanerCfg
      TranscriptCleaner.initBuckets [exShortDF] 0).1[0]? = [exShortDF][0]? :=
  c10_no_mutation FeaturePipeline.pipelineCleanerCfg
    TranscriptCleaner.initBuckets [exShortDF] 0 (by decide)

/-- C1 witness: the theorem applied to a concrete link and to the null cell. -/
theorem c1_witness :
    FeaturePipeline.linkIdCell (some "https://a.io/x") =
      Except.ok (FeaturePipeline.first64OfSha256 "https://a.io/x") ∧
    FeaturePipeline.linkIdCell none ≠
      Except.ok (FeaturePipeline.first64OfSha256 "") :=
  ⟨c1_link_id_first64.1 "https://a.io/x",
   c1_link_id_first64.2 (FeaturePipeline.first64OfSha256 "")⟩

/-- C2 witness: the amended conservation equation at the concrete
duplicate-row run (where the de-duplicated count fails it). -/
theorem c2_witness :
    (((TranscriptCleaner.clean FeaturePipeline.pipelineCleanerCfg
        TranscriptCleaner.initBuckets
        (FeaturePipeline.dropnaTranscript (FeaturePipeline.replaceNan
          (FeaturePipeline.loadAndMerge exCfg cexWorkbook cexTranscripts)))).2.map
        (fun kv => kv.2.rows.length)).sum) +
      (TranscriptCleaner.clean FeaturePipeline.pipelineCleanerCfg
        TranscriptCleaner.initBuckets
        (FeaturePipeline.dropnaTranscript (FeaturePipeline.replaceNan
          (FeaturePipeline.loadAndMerge exCfg cexWorkbook cexTranscripts)))).1.rows.length +
      FeaturePipeline.missingTranscriptCount (FeaturePipeline.replaceNan
        (FeaturePipeline.loadAndMerge exCfg cexWorkbook cexTranscripts)) +
      ((ExcelLoader.loadWorkbook exCfg cexWorkbook).filter
        (fun r => decide (r.social_network ≠ "Instagram"))).length =
      (ExcelLoader.loadWorkbook exCfg cexWorkbook).length :=
  c2_conservation exCfg cexWorkbook cexTranscripts

/-- C9 witness: a whitespace-only cell has an empty word list and is not
removed by the repetitive rule. -/
theorem c9_witness :
    TranscriptCleaner.repetitiveMask FeaturePipeline.pipelineCleanerCfg
      ["transcript"] [some "   "] = false :=
  (c9_repetitive_rule FeaturePipeline.pipelineCleanerCfg ["transcript"]
    [some "   "]).2 (by decide)
